import Mathlib

/-!
Shallow embedding of the AbacuSync test-delivery engine: the answer
evaluator (`tests_app/utils.py`), the result-aggregation serializer
(`tests_app/serializers.py`) and the attempt state machine of
`StudentTestViewSet` (`tests_app/views.py`), together with theorems that
settle the specification claims about them.

Modelling conventions: Python ints are `ℤ`; Python floats are carried as
exact rationals (`ℚ`), with rounding modelled as exact round-half-to-even;
wall-clock timestamps are integer seconds (`ℤ`); fallible Python code is
embedded as `Except PyExn`.
-/

deriving instance DecidableEq for Except

namespace AbacuSync

/-- Exceptions that the embedded Python code can raise. -/
inductive PyExn where
  | valueError (msg : String)
  | typeError
  | indexError
  | zeroDivisionError
deriving DecidableEq

/-- Python numeric values: an `int` carries an exact integer, a `float` is
modelled by the exact rational value it denotes. -/
inductive PyNum where
  | int (z : ℤ)
  | float (q : ℚ)
deriving DecidableEq

/-- Numeric value of a Python number. -/
def PyNum.toRat : PyNum → ℚ
  | .int z => (z : ℚ)
  | .float q => q

/-- Whether a Python number is an `int`. -/
def PyNum.isInt : PyNum → Bool
  | .int _ => true
  | .float _ => false

/-- Python `+` on numbers: `int + int` is an `int`, any mix with a float is
a float. -/
def pyAdd : PyNum → PyNum → PyNum
  | .int a, .int b => .int (a + b)
  | a, b => .float (a.toRat + b.toRat)

/-- Python `*` on numbers, with the same int/float promotion as `pyAdd`. -/
def pyMul : PyNum → PyNum → PyNum
  | .int a, .int b => .int (a * b)
  | a, b => .float (a.toRat * b.toRat)

/-- Python `sum(xs)`: left fold of `+` over the list starting from `int 0`. -/
def pySum (xs : List PyNum) : PyNum :=
  xs.foldl pyAdd (.int 0)

/-- Python `==` between numbers compares numeric values across int/float. -/
def pyEq (a b : PyNum) : Bool :=
  if a.toRat = b.toRat then true else false

/-- Round a rational to the nearest integer, ties to even: the behaviour of
Python `round` on the exact value. -/
def roundHalfEvenZ (q : ℚ) : ℤ :=
  let f := ⌊q⌋
  if 2 * (q - f) < 1 then f
  else if 1 < 2 * (q - f) then f + 1
  else if f % 2 = 0 then f else f + 1

/-- Python `round(q, 2)` on the exact value of `q`. -/
def round2 (q : ℚ) : ℚ :=
  (roundHalfEvenZ (q * 100) : ℚ) / 100

/-- Python strings abstracted by their numeric parse behaviour: `intStr z`
stands for the texts `int()` parses to `z` (such as the decimal rendering of
an integer, which is what `str()` produces on an int), `floatStr q` for the
texts `float()` parses to `q` but `int()` rejects (such as the `str()`
rendering of any float, which always carries a decimal point or an
exponent), and `otherText` for texts both parsers reject. -/
inductive PyStr where
  | intStr (z : ℤ)
  | floatStr (q : ℚ)
  | otherText (s : String)
deriving DecidableEq

/-- Python `int(text)` on an abstracted string. -/
def pyIntOfStr : PyStr → Except PyExn ℤ
  | .intStr z => .ok z
  | .floatStr _ => .error (.valueError "invalid literal for int")
  | .otherText _ => .error (.valueError "invalid literal for int")

/-- Python `float(text)` on an abstracted string. -/
def pyFloatOfStr : PyStr → Except PyExn ℚ
  | .intStr z => .ok (z : ℚ)
  | .floatStr q => .ok q
  | .otherText _ => .error (.valueError "could not convert string to float")

/-- Number of digits printed after the decimal point by Python `str()` on a
float of exact value `q`, within the at-most-two-decimals regime produced by
`round(x, 2)`: Python prints the shortest digit run (at least one digit), so
trailing zeros are dropped (`4.0`, `3.5`, `0.33`). Values outside that
regime are mapped to `0` (they are never produced by the DIVIDE path). -/
def strDecimalDigits (q : ℚ) : ℕ :=
  if (q * 10).den = 1 then 1
  else if (q * 100).den = 1 then 2
  else 0

/-- Question types: the enum `Question.QuestionType` has exactly `plus`,
`multiply` and `divide`; `unknownType s` models any other content of the
underlying `CharField` (choices are not enforced by the database). -/
inductive QuestionType where
  | plus
  | multiply
  | divide
  | unknownType (s : String)
deriving DecidableEq

/-- Decode outcome of `ast.literal_eval` on a question's `text` field,
abstracted: `numList xs` for payloads that parse to a list of numbers,
`otherLit` for well-formed literals that are not numeric lists (on which
each of the three arithmetic operations raises `TypeError`), and
`malformed` for texts on which `literal_eval` raises
`ValueError`/`SyntaxError`. -/
inductive Payload where
  | numList (xs : List PyNum)
  | otherLit
  | malformed
deriving DecidableEq

/-- Question row: the fields of `tests_app.models.Question` the evaluator
and the submission flow read. -/
structure Question where
  qid : ℕ
  question_type : QuestionType
  text : Payload
  marks : ℤ
deriving DecidableEq

/-- Embedding of `AnswerEvaluator.parse_numbers`: `ast.literal_eval` on the question
text, re-raising parse failures as `ValueError("Invalid question format")`. -/
def parse_numbers : Payload → Except PyExn Payload
  | .malformed => .error (.valueError "Invalid question format")
  | p => .ok p

/-- Embedding of `AnswerEvaluator.calculate_answer`: computes the expected answer.
PLUS maps to `sum`, MULTIPLY to `reduce(operator.mul, ·)`, DIVIDE to
`round(x[0] / x[1], 2)`; a type outside the enum returns `None`. The
surrounding `try` catches only `ValueError`, `SyntaxError` and `TypeError`
(returning `None`); `IndexError` from `x[0]`/`x[1]` on a short list and
`ZeroDivisionError` from a zero divisor propagate out. -/
def calculate_answer (q : Question) : Except PyExn (Option PyNum) :=
  match parse_numbers q.text with
  | .error _ => .ok none
  | .ok p =>
    match q.question_type with
    | .unknownType _ => .ok none
    | .plus =>
      match p with
      | .numList xs => .ok (some (pySum xs))
      | _ => .ok none
    | .multiply =>
      match p with
      | .numList (x :: xs) => .ok (some (xs.foldl pyMul x))
      | _ => .ok none
    | .divide =>
      match p with
      | .numList [] => .error .indexError
      | .numList [_] => .error .indexError
      | .numList (a :: b :: _) =>
        if b.toRat = 0 then .error .zeroDivisionError
        else .ok (some (.float (round2 (a.toRat / b.toRat))))
      | _ => .ok none

/-- Embedding of `AnswerEvaluator.format_answer`: `None` stays `None`; DIVIDE values are
rendered as `str(round(float(answer), 2))`; every other value as
`str(answer)`. -/
def format_answer (answer : Option PyNum) (question_type : QuestionType) :
    Option PyStr :=
  match answer with
  | none => none
  | some a =>
    if question_type = .divide then some (.floatStr (round2 a.toRat))
    else
      match a with
      | .int z => some (.intStr z)
      | .float q => some (.floatStr q)

/-- Embedding of `AnswerEvaluator.parse_student_answer`: DIVIDE answers are
`round(float(text), 2)`, all others `int(text)`; any parse failure is
re-raised as `ValueError("Invalid answer format")`. -/
def parse_student_answer (answer_text : PyStr)
    (question_type : QuestionType) : Except PyExn PyNum :=
  if question_type = .divide then
    match pyFloatOfStr answer_text with
    | .ok q => .ok (.float (round2 q))
    | .error _ => .error (.valueError "Invalid answer format")
  else
    match pyIntOfStr answer_text with
    | .ok z => .ok (.int z)
    | .error _ => .error (.valueError "Invalid answer format")

/-- Result dictionary returned by `AnswerEvaluator.evaluate_answer`. -/
structure EvalResult where
  is_correct : Bool
  marks_obtained : ℤ
  expected_answer : Option PyNum
  student_answer : Option PyNum := none
  error : Option String := none
deriving DecidableEq

/-- Body of the `try` block of `AnswerEvaluator.evaluate_answer`, with
exceptions propagating: compute the expected answer (None means the
unsupported-type result), parse the student's answer, compare with `==`,
and award full marks or zero. -/
def evaluateBody (q : Question) (answer_text : PyStr) :
    Except PyExn EvalResult :=
  match calculate_answer q with
  | .error e => .error e
  | .ok none =>
    .ok { is_correct := false, marks_obtained := 0,
          expected_answer := none,
          error := some "Unsupported question type" }
  | .ok (some exp) =>
    match parse_student_answer answer_text q.question_type with
    | .error e => .error e
    | .ok student =>
      let correct := pyEq student exp
      .ok { is_correct := correct,
            marks_obtained := if correct then q.marks else 0,
            expected_answer := some exp,
            student_answer := some student }

/-- Embedding of `AnswerEvaluator.evaluate_answer`: runs the body and converts any
`ValueError` into an incorrect result carrying its message, and any other
exception into an incorrect result with a generic message. -/
def evaluate_answer (q : Question) (answer_text : PyStr) : EvalResult :=
  match evaluateBody q answer_text with
  | .ok r => r
  | .error (.valueError msg) =>
    { is_correct := false, marks_obtained := 0, expected_answer := none,
      error := some msg }
  | .error _ =>
    { is_correct := false, marks_obtained := 0, expected_answer := none,
      error := some "An unexpected error occurred" }

/-- Answer row: the columns of `tests_app.models.StudentAnswer` that the
submission flow writes and the result serializer reads. The pair
(attempt, question) is the row's key; the attempt is fixed by the state it
lives in, so only the question id is kept. -/
structure StoredAnswer where
  question : ℕ
  answer_text : PyStr
  is_correct : Bool
  marks_obtained : ℤ
deriving DecidableEq

/-- StudentTest row as `EnhancedTestResultSerializer` sees it: its answer
rows and the number of questions across the test's sections. -/
structure ResultObj where
  answers : List StoredAnswer
  testQuestionCount : ℕ
deriving DecidableEq

/-- Embedding of `EnhancedTestResultSerializer.get_total_questions`: question count over
all sections of the test. -/
def get_total_questions (obj : ResultObj) : ℕ :=
  obj.testQuestionCount

/-- Embedding of `EnhancedTestResultSerializer.get_total_attempted`: `answers.count()`. -/
def get_total_attempted (obj : ResultObj) : ℕ :=
  obj.answers.length

/-- Embedding of `EnhancedTestResultSerializer.get_correct_answers`:
`answers.filter(is_correct=True).count()`. -/
def get_correct_answers (obj : ResultObj) : ℕ :=
  (obj.answers.filter (fun r => r.is_correct = true)).length

/-- Embedding of `EnhancedTestResultSerializer.get_accuracy_percentage`: `0` when no
answer was attempted, otherwise `round((correct / attempted) * 100, 2)`. -/
def get_accuracy_percentage (obj : ResultObj) : ℚ :=
  let attempted := get_total_attempted obj
  if attempted = 0 then 0
  else round2 (((get_correct_answers obj : ℚ) / (attempted : ℚ)) * 100)

/-- Accuracy formula as the spec words it, to compare with the code's
`get_accuracy_percentage`: divide by the attempted count, never by the
total question count, and return `0` when nothing was attempted. -/
def specAccuracyPct (correct attempted : ℕ) : ℚ :=
  if attempted = 0 then 0
  else round2 (((correct : ℚ) / (attempted : ℚ)) * 100)

/-- Status enum of `tests_app.models.StudentTest`. -/
inductive AttemptStatus where
  | pending
  | in_progress
  | completed
  | interrupted
deriving DecidableEq

/-- Test row: the only field the state machine reads. -/
structure TestDef where
  duration_minutes : ℕ
deriving DecidableEq

/-- Session row (`tests_app.models.TestSession`): the countdown and the
`auto_now` sync timestamp. `remaining_time_seconds` is written at creation
and by every state-machine path, so it is carried non-null; on such values
the `or 0` guard of `extend_time` is the identity. -/
structure SessionClock where
  remaining_time_seconds : ℤ
  last_sync : ℤ
deriving DecidableEq

/-- Attempt row (`tests_app.models.StudentTest`) with its owned session. -/
structure Attempt where
  status : AttemptStatus
  start_time : Option ℤ
  end_time : Option ℤ
  test : TestDef
  session : Option SessionClock
deriving DecidableEq

/-- Attempt together with its stored answers: the state that
`StudentTestViewSet` actions read and write. -/
structure AttemptState where
  attempt : Attempt
  answers : List StoredAnswer
deriving DecidableEq

/-- Error responses (HTTP 400 bodies) of the `StudentTestViewSet` actions. -/
inductive ApiError where
  | duplicateAttempt
  | cannotStart
  | testNotInProgress
  | notInterrupted
  | testExpired
  | notInProgressOrInterrupted
  | invalidExtension
  | noSession
deriving DecidableEq

/-- Embedding of `StudentTestViewSet.create`: rejects whenever any `StudentTest` row for
the (student, test) pair exists — regardless of its status — and otherwise
creates a PENDING attempt plus a session holding
`test.duration_minutes * 60` seconds. -/
def create_op (existing : Option Attempt) (test : TestDef) (now : ℤ) :
    Except ApiError Attempt :=
  match existing with
  | some _ => .error .duplicateAttempt
  | none =>
    let s : SessionClock :=
      { remaining_time_seconds := (test.duration_minutes : ℤ) * 60,
        last_sync := now }
    .ok { status := .pending, start_time := none, end_time := none,
          test := test, session := some s }

/-- Spec wording of the creation guard: creation is blocked only by a
non-terminal attempt (status other than COMPLETED) for the pair. -/
def specNonTerminalBlock (existing : Option Attempt) : Bool :=
  match existing with
  | none => false
  | some a => if a.status = .completed then false else true

/-- Embedding of `StudentTestViewSet._update_remaining_time`: when the attempt has a
session and a start time, recompute
`remaining = max(0, duration_minutes * 60 - elapsed)` from the start time
and persist it (the save refreshes the `auto_now` field `last_sync`);
return the session's remaining seconds, or `0` when there is no session. -/
def updateRemainingTime (a : Attempt) (now : ℤ) : Attempt × ℤ :=
  match a.session, a.start_time with
  | some s, some st =>
    let remaining := max 0 ((a.test.duration_minutes : ℤ) * 60 - (now - st))
    let s' := { s with remaining_time_seconds := remaining, last_sync := now }
    ({ a with session := some s' }, remaining)
  | some s, none => (a, s.remaining_time_seconds)
  | none, _ => (a, 0)

/-- Embedding of `StudentTestViewSet.start`: PENDING attempts move to IN_PROGRESS with
`start_time = now`, and the session countdown is reset to the full
duration. -/
def start_op (a : Attempt) (now : ℤ) : Except ApiError Unit × Attempt :=
  if a.status ≠ .pending then (.error .cannotStart, a)
  else
    let a' := { a with status := .in_progress, start_time := some now }
    match a'.session with
    | some s =>
      let s' := { s with
        remaining_time_seconds := (a.test.duration_minutes : ℤ) * 60,
        last_sync := now }
      (.ok (), { a' with session := some s' })
    | none => (.ok (), a')

/-- Embedding of `StudentTestViewSet.pause`: IN_PROGRESS attempts resync the clock and
freeze as INTERRUPTED, returning the resynced remaining time. -/
def pause_op (a : Attempt) (now : ℤ) : Except ApiError ℤ × Attempt :=
  if a.status ≠ .in_progress then (.error .testNotInProgress, a)
  else
    let p := updateRemainingTime a now
    (.ok p.2, { p.1 with status := .interrupted })

/-- Embedding of `StudentTestViewSet.resume`: INTERRUPTED attempts with a session whose
stored remaining time is exhausted are forced to COMPLETED and rejected;
otherwise the attempt re-anchors `start_time := now` and runs again. -/
def resume_op (a : Attempt) (now : ℤ) : Except ApiError Unit × Attempt :=
  if a.status ≠ .interrupted then (.error .notInterrupted, a)
  else
    match a.session with
    | some s =>
      if s.remaining_time_seconds ≤ 0 then
        (.error .testExpired,
         { a with status := .completed, end_time := some now })
      else
        (.ok (), { a with status := .in_progress, start_time := some now,
                          session := some { s with last_sync := now } })
    | none =>
      (.ok (), { a with status := .in_progress, start_time := some now })

/-- Response body of a successful `submit_answer` call. -/
structure SubmitOk where
  is_correct : Bool
  marks_obtained : ℤ
  expected_answer : Option PyNum
  errorMsg : Option String
deriving DecidableEq

/-- Upsert of `StudentAnswer` rows performed by `submit_answer`: if rows
for the question exist they are updated in place (`queryset.update`),
otherwise a new row is created. -/
def upsertAnswer (answers : List StoredAnswer) (qid : ℕ) (txt : PyStr)
    (correct : Bool) (marks : ℤ) : List StoredAnswer :=
  if answers.any (fun r => r.question = qid) then
    answers.map (fun r =>
      if r.question = qid then
        { r with answer_text := txt, is_correct := correct,
                 marks_obtained := marks }
      else r)
  else
    answers ++ [{ question := qid, answer_text := txt, is_correct := correct,
                  marks_obtained := marks }]

/-- Embedding of `StudentTestViewSet.submit_answer`: rejected unless the attempt status
is IN_PROGRESS; otherwise the answer is graded by
`AnswerEvaluator.evaluate_answer` and upserted. The attempt row and the
session clock are not read or written: no resync and no expiry check
happen on this path. -/
def submit_answer_op (st : AttemptState) (q : Question)
    (answer_text : PyStr) : Except ApiError SubmitOk × AttemptState :=
  if st.attempt.status ≠ .in_progress then (.error .testNotInProgress, st)
  else
    let ev := evaluate_answer q answer_text
    (.ok { is_correct := ev.is_correct, marks_obtained := ev.marks_obtained,
           expected_answer := ev.expected_answer, errorMsg := ev.error },
     { st with answers := upsertAnswer st.answers q.qid answer_text
                            ev.is_correct ev.marks_obtained })

/-- Embedding of `StudentTestViewSet.end_test`: IN_PROGRESS or INTERRUPTED attempts are
marked COMPLETED with `end_time = now` (the analytics snapshot it also
writes lives outside this state). -/
def end_test_op (a : Attempt) (now : ℤ) : Except ApiError Unit × Attempt :=
  if a.status = .in_progress ∨ a.status = .interrupted then
    (.ok (), { a with status := .completed, end_time := some now })
  else (.error .notInProgressOrInterrupted, a)

/-- Embedding of `StudentTestViewSet.extend_time`: positive extensions on IN_PROGRESS or
INTERRUPTED attempts with a session add `additional_minutes * 60` to the
stored remaining time; INTERRUPTED attempts are reactivated. -/
def extend_time_op (a : Attempt) (additional_minutes : ℤ) (now : ℤ) :
    Except ApiError ℤ × Attempt :=
  if additional_minutes ≤ 0 then (.error .invalidExtension, a)
  else if ¬ (a.status = .in_progress ∨ a.status = .interrupted) then
    (.error .notInProgressOrInterrupted, a)
  else
    match a.session with
    | none => (.error .noSession, a)
    | some s =>
      let s' := { s with
        remaining_time_seconds := s.remaining_time_seconds + additional_minutes * 60,
        last_sync := now }
      let a' := { a with session := some s' }
      (.ok s'.remaining_time_seconds,
       if a.status = .interrupted then { a' with status := .in_progress }
       else a')

/-- Embedding of `StudentTestViewSet.retrieve`: resyncs the clock when the attempt is
IN_PROGRESS, then serializes the attempt. -/
def retrieve_op (a : Attempt) (now : ℤ) : Attempt :=
  if a.status = .in_progress then (updateRemainingTime a now).1 else a

/-- Invariant claimed for the answer store: at most one row per question
(for the fixed attempt), phrased as pairwise distinct question keys. -/
def atMostOnePerQuestion (answers : List StoredAnswer) : Prop :=
  answers.Pairwise (fun r1 r2 => r1.question ≠ r2.question)

instance (answers : List StoredAnswer) :
    Decidable (atMostOnePerQuestion answers) :=
  inferInstanceAs (Decidable (answers.Pairwise _))

/-- Row that `submit_answer` leaves in the store for the submitted
question. -/
def submittedRow (q : Question) (answer_text : PyStr) : StoredAnswer :=
  { question := q.qid, answer_text := answer_text,
    is_correct := (evaluate_answer q answer_text).is_correct,
    marks_obtained := (evaluate_answer q answer_text).marks_obtained }

/-- Round trip of the claims about grading one's own formatted expected
answer: compute the expected answer, format it, and grade the formatted
text against the same question (defined only when the expected answer
computation does not raise and yields a formattable value). -/
def roundTripGrade (q : Question) : Option EvalResult :=
  match calculate_answer q with
  | .error _ => none
  | .ok v =>
    match format_answer v q.question_type with
    | none => none
    | some t => some (evaluate_answer q t)

/-- Test of one minute used by the concrete scenarios below. -/
def sampleTest : TestDef := { duration_minutes := 1 }

/-- Concrete PLUS question `[2, 3]`. -/
def plusQuestion : Question :=
  { qid := 1, question_type := .plus, text := .numList [.int 2, .int 3],
    marks := 1 }

/-- Concrete MULTIPLY question `[2, 3]`. -/
def mulQuestion : Question :=
  { qid := 2, question_type := .multiply, text := .numList [.int 2, .int 3],
    marks := 1 }

/-- Concrete DIVIDE question `[1, 3]`. -/
def divQuestion : Question :=
  { qid := 3, question_type := .divide, text := .numList [.int 1, .int 3],
    marks := 2 }

/-- Concrete question whose type tag lies outside the enum. -/
def mysteryQuestion : Question :=
  { qid := 4, question_type := .unknownType "modulo",
    text := .numList [.int 1, .int 3], marks := 1 }

/-- Concrete DIVIDE question `[5, 0]`: zero divisor. -/
def divZeroQuestion : Question :=
  { qid := 5, question_type := .divide, text := .numList [.int 5, .int 0],
    marks := 1 }

/-- Concrete PLUS question `[1.5, 2]` with a float operand. -/
def floatPlusQuestion : Question :=
  { qid := 6, question_type := .plus,
    text := .numList [.float (3 / 2), .int 2], marks := 1 }

/-- Running attempt at the one-minute test, started at time 0. -/
def runningAttempt : Attempt :=
  { status := .in_progress, start_time := some 0, end_time := none,
    test := sampleTest, session := some ⟨60, 0⟩ }

/-- State of the running attempt with an empty answer store. -/
def runningState : AttemptState := { attempt := runningAttempt, answers := [] }

/-- Completed attempt at the one-minute test. -/
def doneAttempt : Attempt :=
  { status := .completed, start_time := some 0, end_time := some 60,
    test := sampleTest, session := some ⟨0, 60⟩ }

/-- State of the completed attempt with an empty answer store. -/
def doneState : AttemptState := { attempt := doneAttempt, answers := [] }

/-- Embedding of `StudentTestViewSet.start` acting on the full state: only the attempt
row (and its session) is touched. -/
def start_state (st : AttemptState) (now : ℤ) :
    Except ApiError Unit × AttemptState :=
  ((start_op st.attempt now).1, { st with attempt := (start_op st.attempt now).2 })

/-- Embedding of `StudentTestViewSet.pause` acting on the full state. -/
def pause_state (st : AttemptState) (now : ℤ) :
    Except ApiError ℤ × AttemptState :=
  ((pause_op st.attempt now).1, { st with attempt := (pause_op st.attempt now).2 })

/-- Embedding of `StudentTestViewSet.resume` acting on the full state. -/
def resume_state (st : AttemptState) (now : ℤ) :
    Except ApiError Unit × AttemptState :=
  ((resume_op st.attempt now).1, { st with attempt := (resume_op st.attempt now).2 })

/-- Embedding of `StudentTestViewSet.end_test` acting on the full state: the analytics
snapshot it writes is a separate table; the answer rows are only read. -/
def end_test_state (st : AttemptState) (now : ℤ) :
    Except ApiError Unit × AttemptState :=
  ((end_test_op st.attempt now).1, { st with attempt := (end_test_op st.attempt now).2 })

/-- Embedding of `StudentTestViewSet.extend_time` acting on the full state. -/
def extend_time_state (st : AttemptState) (m now : ℤ) :
    Except ApiError ℤ × AttemptState :=
  ((extend_time_op st.attempt m now).1,
   { st with attempt := (extend_time_op st.attempt m now).2 })

/-- Embedding of `StudentTestViewSet.retrieve` acting on the full state. -/
def retrieve_state (st : AttemptState) (now : ℤ) : AttemptState :=
  { st with attempt := retrieve_op st.attempt now }

/-- Serializer view with one correct answer out of a ten-question test. -/
def resultViewA : ResultObj :=
  { answers := [{ question := 1, answer_text := .intStr 5,
                  is_correct := true, marks_obtained := 1 }],
    testQuestionCount := 10 }

/-- Serializer view with the same answers as `resultViewA` but a different
question count. -/
def resultViewB : ResultObj :=
  { answers := [{ question := 1, answer_text := .intStr 5,
                  is_correct := true, marks_obtained := 1 }],
    testQuestionCount := 3 }

/-- Running attempt state that already holds two answer rows, one of them
for question 1. -/
def stWithAnswers : AttemptState :=
  { attempt := runningAttempt,
    answers := [{ question := 1, answer_text := .intStr 4,
                  is_correct := false, marks_obtained := 0 },
                { question := 2, answer_text := .intStr 9,
                  is_correct := true, marks_obtained := 1 }] }

example : calculate_answer
    { qid := 0, question_type := .plus, text := .numList [.int 2, .int 3],
      marks := 1 } = .ok (some (.int 5)) := by
  norm_num [calculate_answer, parse_numbers, pySum, pyAdd]

example : round2 (1 / 3) = 33 / 100 := by norm_num [round2, roundHalfEvenZ]

example : round2 (7 / 2) = 7 / 2 := by norm_num [round2, roundHalfEvenZ]

example : evaluate_answer
    { qid := 0, question_type := .divide, text := .numList [.int 1, .int 3],
      marks := 2 } (.floatStr (33 / 100)) =
    { is_correct := true, marks_obtained := 2,
      expected_answer := some (.float (33 / 100)),
      student_answer := some (.float (33 / 100)) } := by
  norm_num [evaluate_answer, evaluateBody, calculate_answer, parse_numbers,
    parse_student_answer, pyFloatOfStr, pyEq, PyNum.toRat, round2,
    roundHalfEvenZ, Except.instMonad, Except.bind, Except.pure]

theorem roundHalfEvenZ_intCast (k : ℤ) : roundHalfEvenZ (k : ℚ) = k := by
  simp [roundHalfEvenZ]

theorem round2_mul_hundred (q : ℚ) :
    round2 q * 100 = ((roundHalfEvenZ (q * 100) : ℤ) : ℚ) := by
  rw [round2]
  exact div_mul_cancel₀ _ (by norm_num)

theorem round2_idem (q : ℚ) : round2 (round2 q) = round2 q := by
  conv_lhs => rw [round2, round2_mul_hundred, roundHalfEvenZ_intCast]
  rfl

theorem round2_den (q : ℚ) : (round2 q * 100).den = 1 := by
  rw [round2_mul_hundred]
  exact Rat.den_intCast _

theorem strDecimalDigits_le_two (q : ℚ) (h : (q * 100).den = 1) :
    1 ≤ strDecimalDigits q ∧ strDecimalDigits q ≤ 2 := by
  by_cases h10 : (q * 10).den = 1 <;> simp [strDecimalDigits, h10, h]

theorem pyAdd_toRat (a b : PyNum) :
    (pyAdd a b).toRat = a.toRat + b.toRat := by
  cases a <;> cases b <;> push_cast [pyAdd, PyNum.toRat] <;> ring

theorem pyMul_toRat (a b : PyNum) :
    (pyMul a b).toRat = a.toRat * b.toRat := by
  cases a <;> cases b <;> push_cast [pyMul, PyNum.toRat] <;> ring

theorem foldl_pyAdd_toRat (xs : List PyNum) (acc : PyNum) :
    (xs.foldl pyAdd acc).toRat = acc.toRat + (xs.map PyNum.toRat).sum := by
  induction xs generalizing acc with
  | nil => simp
  | cons x xs ih =>
    simp only [List.foldl_cons, List.map_cons, List.sum_cons, ih,
      pyAdd_toRat]
    ring

theorem foldl_pyMul_toRat (xs : List PyNum) (acc : PyNum) :
    (xs.foldl pyMul acc).toRat = acc.toRat * (xs.map PyNum.toRat).prod := by
  induction xs generalizing acc with
  | nil => simp
  | cons x xs ih =>
    simp only [List.foldl_cons, List.map_cons, List.prod_cons, ih,
      pyMul_toRat]
    ring

theorem pySum_toRat (xs : List PyNum) :
    (pySum xs).toRat = (xs.map PyNum.toRat).sum := by
  rw [pySum, foldl_pyAdd_toRat]
  simp [PyNum.toRat]

/-- C3 counterexample: on the valid numeric list `[5, 0]` a DIVIDE
question's `calculate_answer` does not return `round(5 / 0, 2)` — it
raises `ZeroDivisionError`, which its own `except` clause does not catch. -/
theorem calculate_answer_zero_divisor_raises :
    calculate_answer divZeroQuestion = .error .zeroDivisionError := by
  norm_num [calculate_answer, parse_numbers, divZeroQuestion, PyNum.toRat]

/-- C3 (amended): for a payload that decodes to a numeric list,
`calculate_answer` returns the sum of the operands for PLUS, the
left-to-right product for MULTIPLY when the list is non-empty, and
`round(operands[0] / operands[1], 2)` for DIVIDE when a second, non-zero
operand exists (otherwise DIVIDE raises instead of returning); a question
type outside the enum yields null. -/
theorem calculate_answer_by_type (q : Question) (xs : List PyNum)
    (h : q.text = .numList xs) :
    (q.question_type = .plus →
      calculate_answer q = .ok (some (pySum xs))
      ∧ (pySum xs).toRat = (xs.map PyNum.toRat).sum)
    ∧ (q.question_type = .multiply → ∀ x rest, xs = x :: rest →
      calculate_answer q = .ok (some (rest.foldl pyMul x))
      ∧ (rest.foldl pyMul x).toRat = (xs.map PyNum.toRat).prod)
    ∧ (q.question_type = .divide → ∀ a b rest, xs = a :: b :: rest →
      b.toRat ≠ 0 →
      calculate_answer q = .ok (some (.float (round2 (a.toRat / b.toRat)))))
    ∧ (∀ s, q.question_type = .unknownType s →
      calculate_answer q = .ok none) := by
  refine ⟨?_, ?_, ?_, ?_⟩
  · intro ht
    exact ⟨by simp [calculate_answer, parse_numbers, h, ht], pySum_toRat xs⟩
  · intro ht x rest hx
    subst hx
    refine ⟨by simp [calculate_answer, parse_numbers, h, ht], ?_⟩
    simp [foldl_pyMul_toRat]
  · intro ht a b rest hx hb
    subst hx
    simp [calculate_answer, parse_numbers, h, ht, hb]
  · intro s ht
    simp [calculate_answer, parse_numbers, h, ht]

/-- C3 witness: the four concrete questions, one per dispatch arm. -/
theorem calculate_answer_by_type_witness :
    (calculate_answer plusQuestion = .ok (some (pySum [.int 2, .int 3]))
      ∧ (pySum [.int 2, .int 3]).toRat =
          ([PyNum.int 2, PyNum.int 3].map PyNum.toRat).sum)
    ∧ (calculate_answer mulQuestion =
          .ok (some ([PyNum.int 3].foldl pyMul (.int 2)))
      ∧ ([PyNum.int 3].foldl pyMul (.int 2)).toRat =
          ([PyNum.int 2, PyNum.int 3].map PyNum.toRat).prod)
    ∧ calculate_answer divQuestion =
        .ok (some (.float (round2
          ((PyNum.int 1).toRat / (PyNum.int 3).toRat))))
    ∧ calculate_answer mysteryQuestion = .ok none :=
  ⟨(calculate_answer_by_type plusQuestion _ rfl).1 rfl,
   (calculate_answer_by_type mulQuestion _ rfl).2.1 rfl (.int 2)
     [.int 3] rfl,
   (calculate_answer_by_type divQuestion _ rfl).2.2.1 rfl (.int 1)
     (.int 3) [] rfl (by norm_num [PyNum.toRat]),
   (calculate_answer_by_type mysteryQuestion _ rfl).2.2.2 "modulo" rfl⟩

/-- C6 counterexample: the non-null DIVIDE expected value 3.5 is rendered
as the Python string of `round(3.5, 2)` — the text `3.5`, which has one
decimal place, not two. -/
theorem divide_format_one_decimal :
    format_answer (some (.float (7 / 2))) .divide =
      some (.floatStr (7 / 2))
    ∧ strDecimalDigits (7 / 2) = 1 := by
  constructor
  · norm_num [format_answer, PyNum.toRat, round2, roundHalfEvenZ]
  · norm_num [strDecimalDigits]

/-- C6 (amended): DIVIDE values are rounded to two decimal places and
rendered by Python `str`, which prints between one and two digits after
the point (trailing zeros dropped); values of other question types keep
their natural integer or float rendering. -/
theorem format_answer_decimals (a : PyNum) (qt : QuestionType) (z : ℤ)
    (p : ℚ) :
    (format_answer (some a) .divide = some (.floatStr (round2 a.toRat))
      ∧ (round2 a.toRat * 100).den = 1
      ∧ 1 ≤ strDecimalDigits (round2 a.toRat)
      ∧ strDecimalDigits (round2 a.toRat) ≤ 2)
    ∧ (qt ≠ .divide → format_answer (some (.int z)) qt = some (.intStr z))
    ∧ (qt ≠ .divide →
        format_answer (some (.float p)) qt = some (.floatStr p))
    ∧ format_answer none qt = none := by
  refine ⟨⟨by simp [format_answer], round2_den _,
    (strDecimalDigits_le_two _ (round2_den _)).1,
    (strDecimalDigits_le_two _ (round2_den _)).2⟩, ?_, ?_, rfl⟩
  · intro hqt
    simp [format_answer, hqt]
  · intro hqt
    simp [format_answer, hqt]

/-- C6 witness: the integer value 7 under DIVIDE, and the PLUS renderings
of the int 42 and the float 3.5. -/
theorem format_answer_decimals_witness :
    (format_answer (some (.int 7)) .divide =
        some (.floatStr (round2 (PyNum.int 7).toRat))
      ∧ (round2 (PyNum.int 7).toRat * 100).den = 1
      ∧ 1 ≤ strDecimalDigits (round2 (PyNum.int 7).toRat)
      ∧ strDecimalDigits (round2 (PyNum.int 7).toRat) ≤ 2)
    ∧ format_answer (some (.int 42)) .plus = some (.intStr 42)
    ∧ format_answer (some (.float (7 / 2))) .plus =
        some (.floatStr (7 / 2))
    ∧ format_answer none .plus = none :=
  ⟨(format_answer_decimals (.int 7) .plus 42 (7 / 2)).1,
   (format_answer_decimals (.int 7) .plus 42 (7 / 2)).2.1 (by decide),
   (format_answer_decimals (.int 7) .plus 42 (7 / 2)).2.2.1 (by decide),
   (format_answer_decimals (.int 7) .plus 42 (7 / 2)).2.2.2⟩

/-- C7: the serializer's accuracy percentage is
`round(correct / attempted * 100, 2)` with the attempted count as the
divisor, `0` when nothing was attempted, and it does not depend on the
test's total question count. -/
theorem accuracy_from_attempted_only (obj : ResultObj) :
    get_accuracy_percentage obj =
      specAccuracyPct (get_correct_answers obj) (get_total_attempted obj)
    ∧ (∀ o2 : ResultObj, o2.answers = obj.answers →
        get_accuracy_percentage o2 = get_accuracy_percentage obj) := by
  constructor
  · rfl
  · intro o2 h
    simp [get_accuracy_percentage, get_total_attempted,
      get_correct_answers, h]

/-- C7 witness: the one-answer view, against the same answers under a
different total question count. -/
theorem accuracy_from_attempted_only_witness :
    get_accuracy_percentage resultViewA =
      specAccuracyPct (get_correct_answers resultViewA)
        (get_total_attempted resultViewA)
    ∧ get_accuracy_percentage resultViewB =
        get_accuracy_percentage resultViewA :=
  ⟨(accuracy_from_attempted_only resultViewA).1,
   (accuracy_from_attempted_only resultViewA).2 resultViewB rfl⟩

/-- C9: for a running attempt, `_update_remaining_time` derives the
remaining time fresh as `max(0, total_seconds - elapsed-since-start)`, and
calling it twice at the same current time is the same as calling it once:
same returned remaining seconds and same persisted state. -/
theorem resync_idempotent (a : Attempt) (now st : ℤ) (s : SessionClock)
    (hstatus : a.status = .in_progress)
    (hsess : a.session = some s) (hstart : a.start_time = some st) :
    (updateRemainingTime a now).2 =
      max 0 ((a.test.duration_minutes : ℤ) * 60 - (now - st))
    ∧ updateRemainingTime (updateRemainingTime a now).1 now =
        updateRemainingTime a now := by
  cases a with
  | mk status start_time end_time test session =>
    simp only at hsess hstart
    subst hsess hstart
    exact ⟨rfl, rfl⟩

/-- C9 witness: the running one-minute attempt resynced at time 30. -/
theorem resync_idempotent_witness :
    (updateRemainingTime runningAttempt 30).2 =
      max 0 ((runningAttempt.test.duration_minutes : ℤ) * 60 - (30 - 0))
    ∧ updateRemainingTime (updateRemainingTime runningAttempt 30).1 30 =
        updateRemainingTime runningAttempt 30 :=
  resync_idempotent runningAttempt 30 0 ⟨60, 0⟩ rfl rfl rfl

/-- C10: for a running attempt, a successful `extend_time` adds
`additional_minutes * 60` to the stored remaining seconds, but the next
`_update_remaining_time` recomputes the remaining time from the start time
alone, so the extended and the unextended attempt resync to the same value
and the same stored session: the extension is lost. -/
theorem extend_time_lost_on_resync (a : Attempt) (m now st : ℤ)
    (s : SessionClock) (hstatus : a.status = .in_progress)
    (hsess : a.session = some s) (hstart : a.start_time = some st)
    (hm : 0 < m) :
    (extend_time_op a m now).1 = .ok (s.remaining_time_seconds + m * 60)
    ∧ (extend_time_op a m now).2.status = .in_progress
    ∧ (updateRemainingTime (extend_time_op a m now).2 now).2 =
        (updateRemainingTime a now).2
    ∧ (updateRemainingTime (extend_time_op a m now).2 now).1.session =
        (updateRemainingTime a now).1.session
    ∧ (updateRemainingTime a now).2 =
        max 0 ((a.test.duration_minutes : ℤ) * 60 - (now - st)) := by
  cases a with
  | mk status start_time end_time test session =>
    simp only at hstatus hsess hstart
    subst hstatus hsess hstart
    have hnot : ¬ m ≤ 0 := not_le.mpr hm
    refine ⟨?_, ?_, ?_, ?_, ?_⟩ <;>
      simp [extend_time_op, updateRemainingTime, hnot]

/-- C10 witness: extending the running one-minute attempt by 5 minutes at
time 30 and resyncing at time 30. -/
theorem extend_time_lost_on_resync_witness :
    (extend_time_op runningAttempt 5 30).1 = .ok (60 + 5 * 60)
    ∧ (extend_time_op runningAttempt 5 30).2.status = .in_progress
    ∧ (updateRemainingTime (extend_time_op runningAttempt 5 30).2 30).2 =
        (updateRemainingTime runningAttempt 30).2
    ∧ (updateRemainingTime (extend_time_op runningAttempt 5 30).2 30).1.session =
        (updateRemainingTime runningAttempt 30).1.session
    ∧ (updateRemainingTime runningAttempt 30).2 =
        max 0 ((runningAttempt.test.duration_minutes : ℤ) * 60 - (30 - 0)) :=
  extend_time_lost_on_resync runningAttempt 5 30 0 ⟨60, 0⟩ rfl rfl rfl
    (by decide)

/-- C2 counterexample: a COMPLETED attempt for the pair is terminal — the
spec's non-terminal guard would allow a new attempt — yet
`StudentTestViewSet.create` rejects with the duplicate-attempt error. -/
theorem create_blocked_by_completed_attempt :
    create_op (some doneAttempt) sampleTest 100 = .error .duplicateAttempt
    ∧ specNonTerminalBlock (some doneAttempt) = false :=
  ⟨rfl, rfl⟩

/-- C2 (amended): `create` fails with the duplicate-attempt error exactly
when any attempt row for the (student, test) pair exists, terminal or not;
when none exists it creates a PENDING attempt whose session holds
`test.duration_minutes * 60` remaining seconds. -/
theorem create_guard_any_attempt (existing : Option Attempt)
    (test : TestDef) (now : ℤ) :
    (create_op existing test now = .error .duplicateAttempt ↔
      existing.isSome = true)
    ∧ (existing = none →
      create_op existing test now =
        .ok { status := .pending, start_time := none, end_time := none,
              test := test,
              session := some ⟨(test.duration_minutes : ℤ) * 60, now⟩ }) := by
  cases existing <;> simp [create_op]

/-- C2 witness: creation against an empty pair succeeds with the PENDING
attempt and the full-duration session. -/
theorem create_guard_any_attempt_witness :
    (create_op none sampleTest 0 = .error .duplicateAttempt ↔
      (none : Option Attempt).isSome = true)
    ∧ create_op none sampleTest 0 =
        .ok { status := .pending, start_time := none, end_time := none,
              test := sampleTest,
              session := some ⟨(sampleTest.duration_minutes : ℤ) * 60, 0⟩ } :=
  ⟨(create_guard_any_attempt none sampleTest 0).1,
   (create_guard_any_attempt none sampleTest 0).2 rfl⟩

/-- C1 counterexample: at time 3600 the running one-minute attempt's
resynced remaining time would be 0 (expired), yet `submit_answer` does not
resync or reject: it returns success, stores the graded answer, and leaves
the attempt IN_PROGRESS instead of forcing COMPLETED with a TestExpired
rejection. -/
theorem submit_answer_ignores_expiry :
    (updateRemainingTime runningAttempt 3600).2 = 0
    ∧ (submit_answer_op runningState plusQuestion (.intStr 5)).1 =
        .ok { is_correct := true, marks_obtained := 1,
              expected_answer := some (.int 5), errorMsg := none }
    ∧ (submit_answer_op runningState plusQuestion (.intStr 5)).2.attempt.status
        = .in_progress
    ∧ (submit_answer_op runningState plusQuestion (.intStr 5)).2.answers =
        [{ question := 1, answer_text := .intStr 5, is_correct := true,
           marks_obtained := 1 }] := by
  have hpd : (QuestionType.plus = QuestionType.divide) = False := by simp
  refine ⟨rfl, ?_, ?_, ?_⟩ <;>
    norm_num [submit_answer_op, runningState, runningAttempt, plusQuestion,
      evaluate_answer, evaluateBody, calculate_answer, parse_numbers, pySum,
      pyAdd, parse_student_answer, pyIntOfStr, pyEq, PyNum.toRat,
      upsertAnswer, hpd, Except.instMonad, Except.bind, Except.pure]

/-- C1 (amended): `submit_answer` is legal exactly when the attempt status
is IN_PROGRESS; it performs no clock resync and no expiry check — on an
IN_PROGRESS attempt it grades and upserts the answer and leaves the
attempt row (status, timestamps and session clock) untouched, whatever the
elapsed time; on any other status it rejects and changes nothing. -/
theorem submit_answer_gated_no_resync (st : AttemptState) (q : Question)
    (t : PyStr) :
    (st.attempt.status ≠ .in_progress →
      submit_answer_op st q t = (.error .testNotInProgress, st))
    ∧ (st.attempt.status = .in_progress →
      (submit_answer_op st q t).1 =
        .ok { is_correct := (evaluate_answer q t).is_correct,
              marks_obtained := (evaluate_answer q t).marks_obtained,
              expected_answer := (evaluate_answer q t).expected_answer,
              errorMsg := (evaluate_answer q t).error }
      ∧ (submit_answer_op st q t).2.attempt = st.attempt
      ∧ (submit_answer_op st q t).2.answers =
          upsertAnswer st.answers q.qid t (evaluate_answer q t).is_correct
            (evaluate_answer q t).marks_obtained) := by
  constructor
  · intro h
    simp [submit_answer_op, h]
  · intro h
    refine ⟨?_, ?_, ?_⟩ <;> simp [submit_answer_op, h]

/-- C1 witness: the completed attempt rejects a submission unchanged; the
running attempt accepts one and keeps its attempt row untouched. -/
theorem submit_answer_gated_no_resync_witness :
    submit_answer_op doneState plusQuestion (.intStr 5) =
      (.error .testNotInProgress, doneState)
    ∧ ((submit_answer_op runningState plusQuestion (.intStr 5)).1 =
        .ok { is_correct :=
                (evaluate_answer plusQuestion (.intStr 5)).is_correct,
              marks_obtained :=
                (evaluate_answer plusQuestion (.intStr 5)).marks_obtained,
              expected_answer :=
                (evaluate_answer plusQuestion (.intStr 5)).expected_answer,
              errorMsg := (evaluate_answer plusQuestion (.intStr 5)).error }
      ∧ (submit_answer_op runningState plusQuestion (.intStr 5)).2.attempt =
          runningState.attempt
      ∧ (submit_answer_op runningState plusQuestion (.intStr 5)).2.answers =
          upsertAnswer runningState.answers plusQuestion.qid (.intStr 5)
            (evaluate_answer plusQuestion (.intStr 5)).is_correct
            (evaluate_answer plusQuestion (.intStr 5)).marks_obtained) :=
  ⟨(submit_answer_gated_no_resync doneState plusQuestion (.intStr 5)).1
      (by decide),
   (submit_answer_gated_no_resync runningState plusQuestion (.intStr 5)).2
      (by decide)⟩

theorem pyEq_self (a : PyNum) : pyEq a a = true := by
  simp [pyEq]

theorem foldl_pyAdd_allInt (xs : List PyNum)
    (h : ∀ x ∈ xs, x.isInt = true) (z : ℤ) :
    ∃ w, xs.foldl pyAdd (.int z) = .int w := by
  induction xs generalizing z with
  | nil => exact ⟨z, rfl⟩
  | cons x xs ih =>
    have hx := h x (List.mem_cons_self x xs)
    have htail : ∀ y ∈ xs, y.isInt = true :=
      fun y hy => h y (List.mem_cons_of_mem x hy)
    cases x with
    | float q => simp [PyNum.isInt] at hx
    | int zx => simpa [pyAdd] using ih htail (z + zx)

theorem foldl_pyMul_allInt (xs : List PyNum)
    (h : ∀ x ∈ xs, x.isInt = true) (z : ℤ) :
    ∃ w, xs.foldl pyMul (.int z) = .int w := by
  induction xs generalizing z with
  | nil => exact ⟨z, rfl⟩
  | cons x xs ih =>
    have hx := h x (List.mem_cons_self x xs)
    have htail : ∀ y ∈ xs, y.isInt = true :=
      fun y hy => h y (List.mem_cons_of_mem x hy)
    cases x with
    | float q => simp [PyNum.isInt] at hx
    | int zx => simpa [pyMul] using ih htail (z * zx)

theorem roundTrip_int (q : Question) (w : ℤ)
    (hcalc : calculate_answer q = .ok (some (.int w)))
    (hqt : q.question_type ≠ .divide) :
    roundTripGrade q = some (evaluate_answer q (.intStr w))
    ∧ (evaluate_answer q (.intStr w)).is_correct = true := by
  constructor
  · simp [roundTripGrade, hcalc, format_answer, hqt]
  · simp [evaluate_answer, evaluateBody, hcalc, parse_student_answer, hqt,
      pyIntOfStr, pyEq_self]

theorem roundTrip_divide (q : Question) (v : ℚ)
    (hcalc : calculate_answer q = .ok (some (.float (round2 v))))
    (hqt : q.question_type = .divide) :
    roundTripGrade q = some (evaluate_answer q (.floatStr (round2 v)))
    ∧ (evaluate_answer q (.floatStr (round2 v))).is_correct = true := by
  constructor
  · simp [roundTripGrade, hcalc, format_answer, hqt, PyNum.toRat,
      round2_idem]
  · simp [evaluate_answer, evaluateBody, hcalc, parse_student_answer, hqt,
      pyFloatOfStr, round2_idem, pyEq_self]

/-- C4 counterexample: the PLUS question `[1.5, 2]` has a valid payload
and a supported type, its expected answer is the float 3.5, but grading
its own formatted expected answer fails: `int("3.5")` raises, so the round
trip grades incorrect with zero marks instead of correct. -/
theorem round_trip_fails_on_float_operand :
    roundTripGrade floatPlusQuestion =
      some { is_correct := false, marks_obtained := 0,
             expected_answer := none, student_answer := none,
             error := some "Invalid answer format" } := by
  have hpd : (QuestionType.plus = QuestionType.divide) = False := by simp
  norm_num [roundTripGrade, floatPlusQuestion, calculate_answer,
    parse_numbers, pySum, pyAdd, PyNum.toRat, format_answer, hpd,
    evaluate_answer, evaluateBody, parse_student_answer, pyIntOfStr]

/-- C4 (amended): grading the formatted expected answer yields
`is_correct = true` for PLUS questions whose operands are all ints, for
MULTIPLY questions with a non-empty all-int operand list, and for DIVIDE
questions with a second, non-zero operand; PLUS/MULTIPLY payloads holding
a float operand break the round trip because the expected float formats
with a decimal point while the student parser demands an int. -/
theorem round_trip_correct (q : Question) (xs : List PyNum)
    (h : q.text = .numList xs) :
    (q.question_type = .plus → (∀ x ∈ xs, x.isInt = true) →
      ∃ r, roundTripGrade q = some r ∧ r.is_correct = true)
    ∧ (q.question_type = .multiply → xs ≠ [] →
      (∀ x ∈ xs, x.isInt = true) →
      ∃ r, roundTripGrade q = some r ∧ r.is_correct = true)
    ∧ (q.question_type = .divide → ∀ a b rest, xs = a :: b :: rest →
      b.toRat ≠ 0 →
      ∃ r, roundTripGrade q = some r ∧ r.is_correct = true) := by
  refine ⟨?_, ?_, ?_⟩
  · intro ht hall
    obtain ⟨w, hw⟩ := foldl_pyAdd_allInt xs hall 0
    have hcalc : calculate_answer q = .ok (some (.int w)) := by
      simp [calculate_answer, parse_numbers, h, ht, pySum, hw]
    have hqt : q.question_type ≠ .divide := by simp [ht]
    obtain ⟨h1, h2⟩ := roundTrip_int q w hcalc hqt
    exact ⟨_, h1, h2⟩
  · intro ht hne hall
    cases xs with
    | nil => exact absurd rfl hne
    | cons x rest =>
      have hx := hall x (List.mem_cons_self x rest)
      cases x with
      | float p => simp [PyNum.isInt] at hx
      | int zx =>
        obtain ⟨w, hw⟩ := foldl_pyMul_allInt rest
          (fun y hy => hall y (List.mem_cons_of_mem _ hy)) zx
        have hcalc : calculate_answer q = .ok (some (.int w)) := by
          simp [calculate_answer, parse_numbers, h, ht, hw]
        have hqt : q.question_type ≠ .divide := by simp [ht]
        obtain ⟨h1, h2⟩ := roundTrip_int q w hcalc hqt
        exact ⟨_, h1, h2⟩
  · intro ht a b rest hx hb
    subst hx
    have hcalc : calculate_answer q =
        .ok (some (.float (round2 (a.toRat / b.toRat)))) := by
      simp [calculate_answer, parse_numbers, h, ht, hb]
    obtain ⟨h1, h2⟩ := roundTrip_divide q (a.toRat / b.toRat) hcalc ht
    exact ⟨_, h1, h2⟩

/-- C4 witness: the concrete PLUS `[2, 3]`, MULTIPLY `[2, 3]` and DIVIDE
`[1, 3]` questions all round-trip to a correct grade. -/
theorem round_trip_correct_witness :
    (∃ r, roundTripGrade plusQuestion = some r ∧ r.is_correct = true)
    ∧ (∃ r, roundTripGrade mulQuestion = some r ∧ r.is_correct = true)
    ∧ (∃ r, roundTripGrade divQuestion = some r ∧ r.is_correct = true) :=
  ⟨(round_trip_correct plusQuestion _ rfl).1 rfl (by decide),
   (round_trip_correct mulQuestion _ rfl).2.1 rfl (by decide) (by decide),
   (round_trip_correct divQuestion _ rfl).2.2 rfl (.int 1) (.int 3) [] rfl
     (by norm_num [PyNum.toRat])⟩

/-- C5: `evaluate_answer` converts every exception of its body — in
particular every parse failure of the student's answer — into a graded
result with `is_correct = false`, zero marks and an error message; no
exception escapes. -/
theorem grading_never_raises (q : Question) (t : PyStr) :
    (∀ e, evaluateBody q t = .error e →
      (evaluate_answer q t).is_correct = false
      ∧ (evaluate_answer q t).marks_obtained = 0
      ∧ (evaluate_answer q t).error.isSome = true)
    ∧ (∀ e, parse_student_answer t q.question_type = .error e →
      (evaluate_answer q t).is_correct = false
      ∧ (evaluate_answer q t).marks_obtained = 0
      ∧ (evaluate_answer q t).error.isSome = true) := by
  constructor
  · intro e he
    cases e <;> simp [evaluate_answer, he]
  · intro e he
    cases hc : calculate_answer q with
    | error e2 =>
      have hb : evaluateBody q t = .error e2 := by
        simp [evaluateBody, hc]
      cases e2 <;> simp [evaluate_answer, hb]
    | ok v =>
      cases v with
      | none =>
        have hb : evaluateBody q t =
            .ok { is_correct := false, marks_obtained := 0,
                  expected_answer := none,
                  error := some "Unsupported question type" } := by
          simp [evaluateBody, hc]
        simp [evaluate_answer, hb]
      | some exp =>
        have hb : evaluateBody q t = .error e := by
          simp [evaluateBody, hc, he]
        cases e <;> simp [evaluate_answer, hb]

/-- C5 witness: non-numeric student text on the PLUS question is graded
incorrect with zero marks and an error instead of raising. -/
theorem grading_never_raises_witness :
    ((evaluate_answer plusQuestion (.otherText "abc")).is_correct = false
      ∧ (evaluate_answer plusQuestion (.otherText "abc")).marks_obtained = 0
      ∧ (evaluate_answer plusQuestion (.otherText "abc")).error.isSome
          = true)
    ∧ ((evaluate_answer plusQuestion (.otherText "abc")).is_correct = false
      ∧ (evaluate_answer plusQuestion (.otherText "abc")).marks_obtained = 0
      ∧ (evaluate_answer plusQuestion (.otherText "abc")).error.isSome
          = true) :=
  ⟨(grading_never_raises plusQuestion (.otherText "abc")).1
      (.valueError "Invalid answer format") (by decide),
   (grading_never_raises plusQuestion (.otherText "abc")).2
      (.valueError "Invalid answer format") (by decide)⟩

theorem upsertAnswer_pairwise (l : List StoredAnswer) (qid : ℕ)
    (txt : PyStr) (c : Bool) (m : ℤ) (h : atMostOnePerQuestion l) :
    atMostOnePerQuestion (upsertAnswer l qid txt c m) := by
  unfold upsertAnswer
  split
  · rw [atMostOnePerQuestion, List.pairwise_map]
    refine h.imp ?_
    intro a b hab hq
    apply hab
    revert hq
    split <;> split <;> simp_all
  · next hany =>
    rw [atMostOnePerQuestion, List.pairwise_append]
    refine ⟨h, List.pairwise_singleton _ _, ?_⟩
    intro a ha b hb
    simp only [List.mem_singleton] at hb
    subst hb
    intro hq
    exact hany (List.any_eq_true.mpr ⟨a, ha, by simp [hq]⟩)

theorem filter_map_upd (l : List StoredAnswer) (qid : ℕ) (txt : PyStr)
    (c : Bool) (m : ℤ) (h : atMostOnePerQuestion l)
    (hany : l.any (fun r => r.question = qid) = true) :
    (l.map (fun r =>
        if r.question = qid then
          { r with answer_text := txt, is_correct := c,
                   marks_obtained := m }
        else r)).filter (fun r => r.question = qid) =
      [{ question := qid, answer_text := txt, is_correct := c,
         marks_obtained := m }] := by
  induction l with
  | nil => simp at hany
  | cons r rs ih =>
    rw [atMostOnePerQuestion, List.pairwise_cons] at h
    simp only [List.map_cons, List.filter_cons]
    by_cases hq : r.question = qid
    · have hfr : (if r.question = qid then
          { r with answer_text := txt, is_correct := c,
                   marks_obtained := m }
        else r) =
          { question := qid, answer_text := txt, is_correct := c,
            marks_obtained := m } := by
        cases r
        simp_all
      have hnil : (rs.map (fun r =>
          if r.question = qid then
            { r with answer_text := txt, is_correct := c,
                     marks_obtained := m }
          else r)).filter (fun r => r.question = qid) = [] := by
        rw [List.filter_eq_nil_iff]
        intro x hx
        obtain ⟨b, hb, rfl⟩ := List.mem_map.mp hx
        have hbq : ¬ (b.question = qid) := fun hbq =>
          h.1 b hb (hq.trans hbq.symm)
        simp [hbq]
      rw [hfr]
      simp [hnil]
    · have hany2 : rs.any (fun r => r.question = qid) = true := by
        simpa [hq] using hany
      have hfr : (if r.question = qid then
          { r with answer_text := txt, is_correct := c,
                   marks_obtained := m }
        else r) = r := if_neg hq
      rw [hfr, if_neg (by simp [hq])]
      exact ih h.2 hany2

theorem filter_append_new (l : List StoredAnswer) (qid : ℕ) (txt : PyStr)
    (c : Bool) (m : ℤ)
    (hany : l.any (fun r => r.question = qid) = false) :
    (l ++ [({ question := qid, answer_text := txt, is_correct := c,
              marks_obtained := m } : StoredAnswer)]).filter
        (fun r => r.question = qid) =
      [({ question := qid, answer_text := txt, is_correct := c,
          marks_obtained := m } : StoredAnswer)] := by
  rw [List.filter_append]
  have h1 : l.filter (fun r => r.question = qid) = [] := by
    rw [List.filter_eq_nil_iff]
    intro a ha
    simp only [decide_eq_true_eq]
    intro hq
    have hmem : l.any (fun r => r.question = qid) = true :=
      List.any_eq_true.mpr ⟨a, ha, by simp [hq]⟩
    rw [hmem] at hany
    exact Bool.noConfusion hany
  simp [h1]

theorem upsertAnswer_filter (l : List StoredAnswer) (qid : ℕ) (txt : PyStr)
    (c : Bool) (m : ℤ) (h : atMostOnePerQuestion l) :
    (upsertAnswer l qid txt c m).filter (fun r => r.question = qid) =
      [{ question := qid, answer_text := txt, is_correct := c,
         marks_obtained := m }] := by
  unfold upsertAnswer
  split
  · next hany => exact filter_map_upd l qid txt c m h hany
  · next hany => exact filter_append_new l qid txt c m (by simpa using hany)

/-- C8: the answer store keeps at most one row per (attempt, question):
`submit_answer` upserts (so the invariant is preserved and, on a running
attempt, the row for the submitted question is exactly one and carries the
latest text, correctness and marks), and every other operation of the view
set leaves the answer rows untouched. -/
theorem answers_upsert_invariant (st : AttemptState) (q : Question)
    (t : PyStr) (now m : ℤ) (h : atMostOnePerQuestion st.answers) :
    atMostOnePerQuestion (submit_answer_op st q t).2.answers
    ∧ (st.attempt.status = .in_progress →
        (submit_answer_op st q t).2.answers.filter
            (fun r => r.question = q.qid) = [submittedRow q t])
    ∧ (start_state st now).2.answers = st.answers
    ∧ (pause_state st now).2.answers = st.answers
    ∧ (resume_state st now).2.answers = st.answers
    ∧ (end_test_state st now).2.answers = st.answers
    ∧ (extend_time_state st m now).2.answers = st.answers
    ∧ (retrieve_state st now).answers = st.answers := by
  refine ⟨?_, ?_, rfl, rfl, rfl, rfl, rfl, rfl⟩
  · by_cases hs : st.attempt.status = .in_progress
    · simpa [submit_answer_op, hs] using
        upsertAnswer_pairwise st.answers q.qid t _ _ h
    · simpa [submit_answer_op, hs] using h
  · intro hs
    simpa [submit_answer_op, hs, submittedRow] using
      upsertAnswer_filter st.answers q.qid t _ _ h

/-- C8 witness: resubmission of question 1 on a running attempt that
already has rows for questions 1 and 2. -/
theorem answers_upsert_invariant_witness :
    atMostOnePerQuestion
      (submit_answer_op stWithAnswers plusQuestion (.intStr 5)).2.answers
    ∧ (submit_answer_op stWithAnswers plusQuestion (.intStr 5)).2.answers.filter
        (fun r => r.question = plusQuestion.qid) =
        [submittedRow plusQuestion (.intStr 5)]
    ∧ (start_state stWithAnswers 0).2.answers = stWithAnswers.answers
    ∧ (pause_state stWithAnswers 0).2.answers = stWithAnswers.answers
    ∧ (resume_state stWithAnswers 0).2.answers = stWithAnswers.answers
    ∧ (end_test_state stWithAnswers 0).2.answers = stWithAnswers.answers
    ∧ (extend_time_state stWithAnswers 3 0).2.answers = stWithAnswers.answers
    ∧ (retrieve_state stWithAnswers 0).answers = stWithAnswers.answers :=
  have h := answers_upsert_invariant stWithAnswers plusQuestion
    (.intStr 5) 0 3 (by decide)
  ⟨h.1, h.2.1 (by decide), h.2.2.1, h.2.2.2.1, h.2.2.2.2.1,
   h.2.2.2.2.2.1, h.2.2.2.2.2.2.1, h.2.2.2.2.2.2.2⟩

end AbacuSync
